import Mathlib

/-!
Verification development for the red-sprite observation predictor
(`src/main.py`).  The numeric core of the program is embedded shallowly:
Python floats are modelled as exact rationals wherever the program only
performs field operations and comparisons, and as real numbers where the
transcendental functions `math.exp` / `math.cos` enter.  Python integers
are modelled as `ℤ`.
-/

namespace RedSprite

open scoped Classical

/-- Embedding of `clamp` (src/main.py, lines 11-16): clamps `value` into
`[min_value, max_value]`.  The Python default arguments `0.0` / `1.0` are
passed explicitly at every call site here. -/
def clamp (value min_value max_value : ℚ) : ℚ :=
  if value < min_value then min_value
  else if value > max_value then max_value
  else value

/-- Embedding of `trapezoid_score` (src/main.py, lines 19-29): linear
trapezoidal membership score in `[0,1]`. -/
def trapezoid_score (value low opt_low opt_high high : ℚ) : ℚ :=
  if value ≤ low ∨ value ≥ high then 0
  else if opt_low ≤ value ∧ value ≤ opt_high then 1
  else if value < opt_low then clamp ((value - low) / (opt_low - low)) 0 1
  else clamp ((high - value) / (high - opt_high)) 0 1

/-- Latitude factor of `predict_red_sprite_probability` (line 48). -/
def lat_score (latitude : ℚ) : ℚ :=
  trapezoid_score latitude (-10.0) 10.0 45.0 60.0

/-- Month factor of `predict_red_sprite_probability` (line 49). -/
def month_score (month : ℤ) : ℚ :=
  trapezoid_score (month : ℚ) 2.5 5.0 9.0 11.5

/-- Hour factor of `predict_red_sprite_probability` (lines 50-55):
`1.0` for 21-23 or 0-2, `0.6` for 18-20 or 3-5, `0.1` otherwise. -/
def hour_score (hour : ℤ) : ℚ :=
  if (21 ≤ hour ∧ hour ≤ 23) ∨ (0 ≤ hour ∧ hour ≤ 2) then 1.0
  else if (18 ≤ hour ∧ hour ≤ 20) ∨ (3 ≤ hour ∧ hour ≤ 5) then 0.6
  else 0.1

/-- Storm factor (line 56): `clamp(storm_activity / 10.0)`. -/
def storm_factor (storm_activity : ℚ) : ℚ := clamp (storm_activity / 10.0) 0 1

/-- Cloud-clarity factor (line 57): `clamp(1.0 - cloud_cover / 100.0)`. -/
def cloud_clear (cloud_cover : ℚ) : ℚ := clamp (1.0 - cloud_cover / 100.0) 0 1

/-- Moon-darkness factor (line 58): `clamp(1.0 - moon_brightness / 100.0)`. -/
def moon_dark (moon_brightness : ℚ) : ℚ := clamp (1.0 - moon_brightness / 100.0) 0 1

/-- Visibility factor (line 59): `clamp(visibility_km / 40.0)`. -/
def visibility_factor (visibility_km : ℚ) : ℚ := clamp (visibility_km / 40.0) 0 1

/-- Linear predictor `z` of `predict_red_sprite_probability`
(src/main.py, lines 61-70), with the exact weights and term order of the
source. -/
def z_value (latitude : ℚ) (month hour : ℤ)
    (storm_activity cloud_cover moon_brightness visibility_km : ℚ) : ℚ :=
  -3.0 + 0.6 * lat_score latitude + 0.5 * month_score month
    + 0.4 * hour_score hour + 2.0 * storm_factor storm_activity
    + 0.6 * visibility_factor visibility_km + 0.4 * cloud_clear cloud_cover
    + 0.2 * moon_dark moon_brightness

/-- Logistic squashing (line 71): `probability = 1.0 / (1.0 + math.exp(-z))`. -/
noncomputable def logistic (z : ℚ) : ℝ := 1 / (1 + Real.exp (-(z : ℝ)))

/-- Latitude reason string (lines 73-78), selected from the latitude score. -/
def lat_reason (s : ℚ) : String :=
  if s ≥ 0.9 then "緯度は最適帯（10-45度）で有利。"
  else if s ≥ 0.5 then "緯度は許容帯（〜60度）でやや有利。"
  else "緯度が典型帯から外れ、寄与が低い。"

/-- Month reason string (lines 80-85). -/
def month_reason (s : ℚ) : String :=
  if s ≥ 0.9 then "季節は暖候期（5-9月）で対流活動が強まりやすい。"
  else if s ≥ 0.4 then "季節は肩シーズンで中程度の寄与。"
  else "寒候期で季節寄与が弱い。"

/-- Hour reason string (lines 87-92), keyed on the hour score value. -/
def hour_reason (s : ℚ) : String :=
  if s = 1.0 then "夜間（21-02時）で観測しやすい。"
  else if s = 0.6 then "薄暮/明け方で観測可能性は中程度。"
  else "日中帯で観測困難。"

/-- Storm reason string (lines 94-99). -/
def storm_reason (s : ℚ) : String :=
  if s > 0.7 then "雷活動が非常に活発。"
  else if s > 0.4 then "雷活動は中程度。"
  else "雷活動が弱く誘発しづらい。"

/-- Cloud reason string (lines 101-106). -/
def cloud_reason (s : ℚ) : String :=
  if s > 0.6 then "雲が少なく視程を阻害しない。"
  else if s > 0.3 then "雲がやや多めで減衰あり。"
  else "雲が多く上空が遮られている。"

/-- Moon reason string (lines 108-113). -/
def moon_reason (s : ℚ) : String :=
  if s > 0.7 then "月明かりが弱く空が暗い。"
  else if s > 0.3 then "月明かりは中程度。"
  else "月明かりが強く暗順応しづらい。"

/-- Visibility reason string (lines 115-118). -/
def visibility_reason (s : ℚ) : String :=
  if s ≥ 0.5 then "視程良好。"
  else "視程が短く減光が大きい。"

/-- Hint selection (src/main.py, lines 120-125): strict thresholds at
0.7 and 0.4 on the probability. -/
noncomputable def hint_for (probability : ℝ) : String :=
  if probability > 0.7 then
    "観測条件は良好です。カメラと双眼鏡を準備し、雷雲の真上より少し離れた方向を注視。"
  else if probability > 0.4 then
    "条件は並程度。落雷数が増えれば狙い目です。カメラは長秒露光を準備。"
  else "条件は弱め。雷活動が活発化するタイミングまで待機がおすすめ。"

/-- Embedding of `predict_red_sprite_probability` (src/main.py, lines
32-127): returns `(probability, reasons, hint)`.  The seven reason
strings are appended in the source's order: latitude, month, hour,
storm, cloud, moon, visibility. -/
noncomputable def predict_red_sprite_probability (latitude longitude : ℚ)
    (month hour : ℤ)
    (storm_activity cloud_cover moon_brightness visibility_km : ℚ) :
    ℝ × List String × String :=
  let z := z_value latitude month hour storm_activity cloud_cover
      moon_brightness visibility_km
  let probability := logistic z
  let reasons : List String :=
    [lat_reason (lat_score latitude),
     month_reason (month_score month),
     hour_reason (hour_score hour),
     storm_reason (storm_factor storm_activity),
     cloud_reason (cloud_clear cloud_cover),
     moon_reason (moon_dark moon_brightness),
     visibility_reason (visibility_factor visibility_km)]
  (probability, reasons, hint_for probability)

/-- C1: for every observation input, `predict` returns probability
`1/(1+e^-z)` where `z = -3.0 + 0.6*latScore + 0.5*monthScore +
0.4*hourScore + 2.0*stormFactor + 0.6*visibilityFactor +
0.4*cloudClarity + 0.2*moonDarkness`, with the trapezoid envelopes
`(-10,10,45,60)` for latitude and `(2.5,5,9,11.5)` for month, and the
clamped ratio factors for storm, visibility, cloud clarity and moon
darkness. -/
theorem C1_probability_formula (latitude longitude : ℚ) (month hour : ℤ)
    (storm_activity cloud_cover moon_brightness visibility_km : ℚ) :
    (predict_red_sprite_probability latitude longitude month hour
        storm_activity cloud_cover moon_brightness visibility_km).1 =
      1 / (1 + Real.exp (-((-3.0
        + 0.6 * trapezoid_score latitude (-10.0) 10.0 45.0 60.0
        + 0.5 * trapezoid_score (month : ℚ) 2.5 5.0 9.0 11.5
        + 0.4 * hour_score hour
        + 2.0 * clamp (storm_activity / 10.0) 0 1
        + 0.6 * clamp (visibility_km / 40.0) 0 1
        + 0.4 * clamp (1.0 - cloud_cover / 100.0) 0 1
        + 0.2 * clamp (1.0 - moon_brightness / 100.0) 0 1 : ℚ) : ℝ))) := rfl

/-- C9: the prediction result does not depend on longitude: two inputs
agreeing on everything except longitude give identical probability,
reasons and hint. -/
theorem C9_longitude_independent (latitude longitude₁ longitude₂ : ℚ)
    (month hour : ℤ)
    (storm_activity cloud_cover moon_brightness visibility_km : ℚ) :
    predict_red_sprite_probability latitude longitude₁ month hour
        storm_activity cloud_cover moon_brightness visibility_km =
      predict_red_sprite_probability latitude longitude₂ month hour
        storm_activity cloud_cover moon_brightness visibility_km := rfl

/-- C5: the hour score is exactly `1.0` on hours 21-23 and 0-2, exactly
`0.6` on hours 18-20 and 3-5, and exactly `0.1` on every other hour in
`[0, 23]`. -/
theorem C5_hour_score_bands (hour : ℤ) :
    ((21 ≤ hour ∧ hour ≤ 23) ∨ (0 ≤ hour ∧ hour ≤ 2) →
      hour_score hour = 1.0) ∧
    ((18 ≤ hour ∧ hour ≤ 20) ∨ (3 ≤ hour ∧ hour ≤ 5) →
      hour_score hour = 0.6) ∧
    (0 ≤ hour → hour ≤ 23 →
      ¬((21 ≤ hour ∧ hour ≤ 23) ∨ (0 ≤ hour ∧ hour ≤ 2)) →
      ¬((18 ≤ hour ∧ hour ≤ 20) ∨ (3 ≤ hour ∧ hour ≤ 5)) →
      hour_score hour = 0.1) := by
  refine ⟨fun h => ?_, fun h => ?_, fun _ _ hA hB => ?_⟩
  · rw [hour_score, if_pos h]
  · rw [hour_score, if_neg (by omega), if_pos h]
  · rw [hour_score, if_neg hA, if_neg hB]

/-- Witness for C5 at hour 22 (night band). -/
theorem C5_hour_score_witness :
    (((21 : ℤ) ≤ 22 ∧ (22 : ℤ) ≤ 23) ∨ ((0 : ℤ) ≤ 22 ∧ (22 : ℤ) ≤ 2)) ∧
      hour_score 22 = 1.0 :=
  ⟨Or.inl ⟨by decide, by decide⟩, (C5_hour_score_bands 22).1 (Or.inl ⟨by decide, by decide⟩)⟩

/-! ### Helper lemmas about `clamp` and `trapezoid_score` -/

lemma le_clamp (v : ℚ) {lo hi : ℚ} (h : lo ≤ hi) : lo ≤ clamp v lo hi := by
  unfold clamp; split_ifs <;> linarith

lemma clamp_le (v : ℚ) {lo hi : ℚ} (h : lo ≤ hi) : clamp v lo hi ≤ hi := by
  unfold clamp; split_ifs <;> linarith

lemma clamp_mono {lo hi : ℚ} (h : lo ≤ hi) {a b : ℚ} (hab : a ≤ b) :
    clamp a lo hi ≤ clamp b lo hi := by
  unfold clamp; split_ifs <;> linarith

lemma trapezoid_nonneg (value low opt_low opt_high high : ℚ) :
    0 ≤ trapezoid_score value low opt_low opt_high high := by
  unfold trapezoid_score
  split_ifs
  · norm_num
  · norm_num
  · exact le_clamp _ (by norm_num)
  · exact le_clamp _ (by norm_num)

lemma trapezoid_le_one (value low opt_low opt_high high : ℚ) :
    trapezoid_score value low opt_low opt_high high ≤ 1 := by
  unfold trapezoid_score
  split_ifs
  · norm_num
  · norm_num
  · exact clamp_le _ (by norm_num)
  · exact clamp_le _ (by norm_num)

/-- On the rising ramp `(low, opt_low)` the score is the clamped linear
interpolation. -/
lemma trapezoid_ramp_up {value low opt_low opt_high high : ℚ}
    (h2 : opt_low ≤ opt_high) (h3 : opt_high < high)
    (hv1 : low < value) (hv2 : value < opt_low) :
    trapezoid_score value low opt_low opt_high high =
      clamp ((value - low) / (opt_low - low)) 0 1 := by
  unfold trapezoid_score
  rw [if_neg (by push_neg; constructor <;> linarith),
    if_neg (by rintro ⟨h, -⟩; linarith), if_pos hv2]

/-- On the falling ramp `(opt_high, high)` the score is the clamped
linear interpolation. -/
lemma trapezoid_ramp_down {value low opt_low opt_high high : ℚ}
    (h1 : low < opt_low) (h2 : opt_low ≤ opt_high)
    (hv1 : opt_high < value) (hv2 : value < high) :
    trapezoid_score value low opt_low opt_high high =
      clamp ((high - value) / (high - opt_high)) 0 1 := by
  unfold trapezoid_score
  rw [if_neg (by push_neg; constructor <;> linarith),
    if_neg (by rintro ⟨-, h⟩; linarith), if_neg (by linarith)]

/-- C2: under the envelope invariant `low < optLow ≤ optHigh < high`,
`trapezoid_score` is 0 at and outside the edges, 1 on the closed
plateau, non-decreasing on the rising ramp, non-increasing on the
falling ramp, and always in `[0,1]`. -/
theorem C2_trapezoid_spec (low opt_low opt_high high : ℚ)
    (h1 : low < opt_low) (h2 : opt_low ≤ opt_high) (h3 : opt_high < high) :
    (∀ value, value ≤ low ∨ value ≥ high →
      trapezoid_score value low opt_low opt_high high = 0) ∧
    (∀ value, opt_low ≤ value → value ≤ opt_high →
      trapezoid_score value low opt_low opt_high high = 1) ∧
    (∀ v w, low < v → v ≤ w → w < opt_low →
      trapezoid_score v low opt_low opt_high high ≤
        trapezoid_score w low opt_low opt_high high) ∧
    (∀ v w, opt_high < v → v ≤ w → w < high →
      trapezoid_score w low opt_low opt_high high ≤
        trapezoid_score v low opt_low opt_high high) ∧
    (∀ value, 0 ≤ trapezoid_score value low opt_low opt_high high ∧
      trapezoid_score value low opt_low opt_high high ≤ 1) := by
  refine ⟨fun v h => ?_, fun v hl hh => ?_, fun v w hv hvw hw => ?_,
    fun v w hv hvw hw => ?_,
    fun v => ⟨trapezoid_nonneg v low opt_low opt_high high,
      trapezoid_le_one v low opt_low opt_high high⟩⟩
  · rw [trapezoid_score, if_pos h]
  · rw [trapezoid_score,
      if_neg (by push_neg; constructor <;> linarith),
      if_pos ⟨hl, hh⟩]
  · rw [trapezoid_ramp_up h2 h3 hv (by linarith),
      trapezoid_ramp_up h2 h3 (by linarith) hw]
    exact clamp_mono (by norm_num) (by
      rw [div_le_div_iff_of_pos_right (by linarith)]; linarith)
  · rw [trapezoid_ramp_down h1 h2 hv (by linarith),
      trapezoid_ramp_down h1 h2 (by linarith) hw]
    exact clamp_mono (by norm_num) (by
      rw [div_le_div_iff_of_pos_right (by linarith)]; linarith)

/-- Witness for C2: the latitude envelope `(-10,10,45,60)` satisfies the
invariant, and the plateau point 20 scores exactly 1. -/
theorem C2_trapezoid_witness :
    ((-10 : ℚ) < 10 ∧ (10 : ℚ) ≤ 45 ∧ (45 : ℚ) < 60) ∧
      trapezoid_score 20 (-10) 10 45 60 = 1 :=
  ⟨⟨by norm_num, by norm_num, by norm_num⟩,
    (C2_trapezoid_spec (-10) 10 45 60 (by norm_num) (by norm_num)
        (by norm_num)).2.1 20 (by norm_num) (by norm_num)⟩

/-! ### Helper lemmas about the logistic combination -/

lemma logistic_pos (z : ℚ) : 0 < logistic z := by
  have h := Real.exp_pos (-(z : ℝ))
  unfold logistic
  positivity

lemma logistic_lt_one (z : ℚ) : logistic z < 1 := by
  have h := Real.exp_pos (-(z : ℝ))
  unfold logistic
  rw [div_lt_one (by linarith)]
  linarith

lemma logistic_mono {a b : ℚ} (h : a ≤ b) : logistic a ≤ logistic b := by
  unfold logistic
  have hexp : Real.exp (-(b : ℝ)) ≤ Real.exp (-(a : ℝ)) := by
    apply Real.exp_le_exp.2
    have : (a : ℝ) ≤ (b : ℝ) := by exact_mod_cast h
    linarith
  have hb := Real.exp_pos (-(b : ℝ))
  apply one_div_le_one_div_of_le (by linarith)
  linarith

lemma exp_le_inv_one_sub {x : ℝ} (hx : x < 1) :
    Real.exp x ≤ 1 / (1 - x) := by
  have h := Real.one_sub_le_exp_neg x
  rw [Real.exp_neg] at h
  have hexp := Real.exp_pos x
  have h2 : (1 - x) * Real.exp x ≤ 1 := by
    have h3 := mul_le_mul_of_nonneg_right h (le_of_lt hexp)
    rwa [inv_mul_cancel₀ (ne_of_gt hexp)] at h3
  rw [le_div_iff₀ (by linarith)]
  linarith

lemma hour_score_cases (hour : ℤ) :
    hour_score hour = 1.0 ∨ hour_score hour = 0.6 ∨ hour_score hour = 0.1 := by
  unfold hour_score
  split_ifs <;> simp

lemma hour_score_bounds (hour : ℤ) :
    0.1 ≤ hour_score hour ∧ hour_score hour ≤ 1 := by
  rcases hour_score_cases hour with h | h | h <;> rw [h] <;> norm_num

/-- Bounds on the linear predictor, valid for arbitrary inputs. -/
lemma z_value_bounds (latitude : ℚ) (month hour : ℤ)
    (storm_activity cloud_cover moon_brightness visibility_km : ℚ) :
    -2.96 ≤ z_value latitude month hour storm_activity cloud_cover
        moon_brightness visibility_km ∧
      z_value latitude month hour storm_activity cloud_cover
        moon_brightness visibility_km ≤ 1.7 := by
  have h1 : 0 ≤ lat_score latitude := trapezoid_nonneg _ _ _ _ _
  have h2 : lat_score latitude ≤ 1 := trapezoid_le_one _ _ _ _ _
  have h3 : 0 ≤ month_score month := trapezoid_nonneg _ _ _ _ _
  have h4 : month_score month ≤ 1 := trapezoid_le_one _ _ _ _ _
  have h5 := hour_score_bounds hour
  have h6 : 0 ≤ storm_factor storm_activity := le_clamp _ (by norm_num)
  have h7 : storm_factor storm_activity ≤ 1 := clamp_le _ (by norm_num)
  have h8 : 0 ≤ cloud_clear cloud_cover := le_clamp _ (by norm_num)
  have h9 : cloud_clear cloud_cover ≤ 1 := clamp_le _ (by norm_num)
  have h10 : 0 ≤ moon_dark moon_brightness := le_clamp _ (by norm_num)
  have h11 : moon_dark moon_brightness ≤ 1 := clamp_le _ (by norm_num)
  have h12 : 0 ≤ visibility_factor visibility_km := le_clamp _ (by norm_num)
  have h13 : visibility_factor visibility_km ≤ 1 := clamp_le _ (by norm_num)
  unfold z_value
  constructor <;> [nlinarith [h5.1, h5.2]; nlinarith [h5.1, h5.2]]

/-- C6: on the documented domains the returned probability is strictly
between 0 and 1, and the reasons list has exactly 7 entries, one per
factor, in the fixed order latitude, month, hour, storm, cloud clarity,
moon darkness, visibility. -/
theorem C6_probability_open_and_reasons_fixed (latitude longitude : ℚ)
    (month hour : ℤ)
    (storm_activity cloud_cover moon_brightness visibility_km : ℚ)
    (hlat : -90 ≤ latitude ∧ latitude ≤ 90)
    (hlon : -180 ≤ longitude ∧ longitude ≤ 180)
    (hmonth : 1 ≤ month ∧ month ≤ 12) (hhour : 0 ≤ hour ∧ hour ≤ 23)
    (hstorm : 0 ≤ storm_activity ∧ storm_activity ≤ 10)
    (hcloud : 0 ≤ cloud_cover ∧ cloud_cover ≤ 100)
    (hmoon : 0 ≤ moon_brightness ∧ moon_brightness ≤ 100)
    (hvis : 0 ≤ visibility_km ∧ visibility_km ≤ 40) :
    0 < (predict_red_sprite_probability latitude longitude month hour
        storm_activity cloud_cover moon_brightness visibility_km).1 ∧
    (predict_red_sprite_probability latitude longitude month hour
        storm_activity cloud_cover moon_brightness visibility_km).1 < 1 ∧
    (predict_red_sprite_probability latitude longitude month hour
        storm_activity cloud_cover moon_brightness visibility_km).2.1.length
      = 7 ∧
    (predict_red_sprite_probability latitude longitude month hour
        storm_activity cloud_cover moon_brightness visibility_km).2.1 =
      [lat_reason (lat_score latitude),
       month_reason (month_score month),
       hour_reason (hour_score hour),
       storm_reason (storm_factor storm_activity),
       cloud_reason (cloud_clear cloud_cover),
       moon_reason (moon_dark moon_brightness),
       visibility_reason (visibility_factor visibility_km)] :=
  ⟨logistic_pos _, logistic_lt_one _, rfl, rfl⟩

/-- Witness for C6 with the spec's demo observation input. -/
theorem C6_witness :
    (((-90 : ℚ) ≤ 35 ∧ (35 : ℚ) ≤ 90) ∧ ((-180 : ℚ) ≤ 138 ∧ (138 : ℚ) ≤ 180) ∧
      ((1 : ℤ) ≤ 7 ∧ (7 : ℤ) ≤ 12) ∧ ((0 : ℤ) ≤ 22 ∧ (22 : ℤ) ≤ 23) ∧
      ((0 : ℚ) ≤ 17/2 ∧ (17/2 : ℚ) ≤ 10) ∧ ((0 : ℚ) ≤ 20 ∧ (20 : ℚ) ≤ 100) ∧
      ((0 : ℚ) ≤ 20 ∧ (20 : ℚ) ≤ 100) ∧ ((0 : ℚ) ≤ 30 ∧ (30 : ℚ) ≤ 40)) ∧
    0 < (predict_red_sprite_probability 35 138 7 22 (17/2) 20 20 30).1 ∧
    (predict_red_sprite_probability 35 138 7 22 (17/2) 20 20 30).1 < 1 ∧
    (predict_red_sprite_probability 35 138 7 22 (17/2) 20 20 30).2.1.length
      = 7 ∧
    (predict_red_sprite_probability 35 138 7 22 (17/2) 20 20 30).2.1 =
      [lat_reason (lat_score 35), month_reason (month_score 7),
       hour_reason (hour_score 22), storm_reason (storm_factor (17/2)),
       cloud_reason (cloud_clear 20), moon_reason (moon_dark 20),
       visibility_reason (visibility_factor 30)] :=
  ⟨by norm_num,
    C6_probability_open_and_reasons_fixed 35 138 7 22 (17/2) 20 20 30
      (by norm_num) (by norm_num) (by norm_num) (by norm_num) (by norm_num)
      (by norm_num) (by norm_num) (by norm_num)⟩

/-- C7: hint selection uses strict lower bounds: probability exactly 0.7
gives the moderate hint, exactly 0.4 gives the weak hint, and anything
strictly above 0.7 gives the favorable hint; the engine's hint is exactly
`hint_for` applied to its probability. -/
theorem C7_hint_strict_thresholds :
    hint_for 0.7 = "条件は並程度。落雷数が増えれば狙い目です。カメラは長秒露光を準備。" ∧
    hint_for 0.4 = "条件は弱め。雷活動が活発化するタイミングまで待機がおすすめ。" ∧
    (∀ p : ℝ, 0.7 < p →
      hint_for p = "観測条件は良好です。カメラと双眼鏡を準備し、雷雲の真上より少し離れた方向を注視。") ∧
    (∀ (latitude longitude : ℚ) (month hour : ℤ)
        (storm_activity cloud_cover moon_brightness visibility_km : ℚ),
      (predict_red_sprite_probability latitude longitude month hour
          storm_activity cloud_cover moon_brightness visibility_km).2.2 =
        hint_for (predict_red_sprite_probability latitude longitude month
          hour storm_activity cloud_cover moon_brightness
          visibility_km).1) := by
  refine ⟨?_, ?_, fun p hp => ?_, fun _ _ _ _ _ _ _ _ => rfl⟩
  · rw [hint_for, if_neg (by norm_num), if_pos (by norm_num)]
  · rw [hint_for, if_neg (by norm_num), if_neg (by norm_num)]
  · rw [hint_for, if_pos (by exact hp)]

/-- Witness for C7 at probability 1. -/
theorem C7_hint_witness :
    (0.7 : ℝ) < 1 ∧
      hint_for 1 = "観測条件は良好です。カメラと双眼鏡を準備し、雷雲の真上より少し離れた方向を注視。" :=
  ⟨by norm_num, C7_hint_strict_thresholds.2.2.1 1 (by norm_num)⟩

lemma exp_seven_tenths_le : Real.exp (7/10) ≤ 400/169 := by
  have h1 := exp_le_inv_one_sub (x := (7/20 : ℝ)) (by norm_num)
  have h2 : (1 : ℝ) / (1 - 7/20) = 20/13 := by norm_num
  have h3 : Real.exp ((7:ℝ)/10) = Real.exp (7/20) * Real.exp (7/20) := by
    rw [← Real.exp_add]; norm_num
  have h4 := Real.exp_pos ((7:ℝ)/20)
  rw [h3]; nlinarith

lemma exp_seventeen_tenths_lt : Real.exp (17/10) < 7 := by
  have h1 : Real.exp ((17:ℝ)/10) = Real.exp 1 * Real.exp (7/10) := by
    rw [← Real.exp_add]; norm_num
  have h2 := Real.exp_one_lt_d9
  have h3 := exp_seven_tenths_le
  have h4 := Real.exp_pos ((7:ℝ)/10)
  have h5 := Real.exp_pos (1 : ℝ)
  rw [h1]; nlinarith

lemma logistic_seventeen_tenths_lt : logistic 1.7 < 7/8 := by
  unfold logistic
  have hc : -(((1.7 : ℚ) : ℝ)) = -(17/10 : ℝ) := by norm_num
  rw [hc, Real.exp_neg]
  have h1 := exp_seventeen_tenths_lt
  have h2 := Real.exp_pos ((17:ℝ)/10)
  have h3 : (1:ℝ)/7 < (Real.exp (17/10))⁻¹ := by
    rw [← one_div]
    exact one_div_lt_one_div_of_lt h2 h1
  rw [div_lt_iff₀ (by positivity)]
  nlinarith

lemma exp_above_seven_thirds : (7:ℝ)/3 < Real.exp (113/100) := by
  have h1 : Real.exp ((113:ℝ)/100) = Real.exp 1 * Real.exp (13/100) := by
    rw [← Real.exp_add]; norm_num
  have h2 := Real.exp_one_gt_d9
  have h3 := Real.add_one_le_exp ((13:ℝ)/100)
  have h4 := Real.exp_pos ((13:ℝ)/100)
  rw [h1]; nlinarith

lemma logistic_demo_gt : (0.7 : ℝ) < logistic 1.13 := by
  unfold logistic
  have hc : -(((1.13 : ℚ) : ℝ)) = -(113/100 : ℝ) := by norm_num
  rw [hc, Real.exp_neg]
  have h1 := exp_above_seven_thirds
  have h2 := Real.exp_pos ((113:ℝ)/100)
  have h3 : (Real.exp (113/100))⁻¹ < 3/7 := by
    rw [inv_lt_comm₀ h2 (by norm_num)]
    linarith
  rw [lt_div_iff₀ (by positivity)]
  nlinarith

/-- C10: for arbitrary inputs (in or out of the documented domains) the
linear predictor lies in `[-2.96, 1.7]`, hence the probability is at
most `1/(1+e^-1.7)` and at least `1/(1+e^2.96)`; the probability always
stays below 7/8 (never near 1), while the favorable hint is reachable. -/
theorem C10_probability_envelope :
    (∀ (latitude longitude : ℚ) (month hour : ℤ)
        (storm_activity cloud_cover moon_brightness visibility_km : ℚ),
      (-2.96 ≤ z_value latitude month hour storm_activity cloud_cover
          moon_brightness visibility_km ∧
        z_value latitude month hour storm_activity cloud_cover
          moon_brightness visibility_km ≤ 1.7) ∧
      (predict_red_sprite_probability latitude longitude month hour
          storm_activity cloud_cover moon_brightness visibility_km).1 ≤
        1 / (1 + Real.exp (-(1.7 : ℝ))) ∧
      1 / (1 + Real.exp (2.96 : ℝ)) ≤
        (predict_red_sprite_probability latitude longitude month hour
          storm_activity cloud_cover moon_brightness visibility_km).1 ∧
      (predict_red_sprite_probability latitude longitude month hour
          storm_activity cloud_cover moon_brightness visibility_km).1
        < 7/8) ∧
    (∃ (latitude longitude : ℚ) (month hour : ℤ)
        (storm_activity cloud_cover moon_brightness visibility_km : ℚ),
      (predict_red_sprite_probability latitude longitude month hour
          storm_activity cloud_cover moon_brightness
          visibility_km).2.2 =
        "観測条件は良好です。カメラと双眼鏡を準備し、雷雲の真上より少し離れた方向を注視。") := by
  constructor
  · intro latitude longitude month hour storm_activity cloud_cover
      moon_brightness visibility_km
    obtain ⟨hzl, hzu⟩ := z_value_bounds latitude month hour storm_activity
      cloud_cover moon_brightness visibility_km
    have hprob : (predict_red_sprite_probability latitude longitude month
        hour storm_activity cloud_cover moon_brightness visibility_km).1 =
        logistic (z_value latitude month hour storm_activity cloud_cover
          moon_brightness visibility_km) := rfl
    refine ⟨⟨hzl, hzu⟩, ?_, ?_, ?_⟩
    · rw [hprob]
      have h := logistic_mono hzu
      have heq : logistic 1.7 = 1 / (1 + Real.exp (-(1.7 : ℝ))) := by
        unfold logistic; norm_num
      rw [heq] at h
      exact h
    · rw [hprob]
      have h := logistic_mono hzl
      have heq : logistic (-2.96) = 1 / (1 + Real.exp (2.96 : ℝ)) := by
        unfold logistic; norm_num
      rw [heq] at h
      exact h
    · rw [hprob]
      exact lt_of_le_of_lt (logistic_mono hzu) logistic_seventeen_tenths_lt
  · refine ⟨35, 138, 7, 22, 17/2, 20, 20, 30, ?_⟩
    have hz : z_value 35 7 22 (17/2) 20 20 30 = 1.13 := by
      norm_num [z_value, lat_score, month_score, hour_score, storm_factor,
        cloud_clear, moon_dark, visibility_factor, trapezoid_score, clamp]
    have hhint : (predict_red_sprite_probability 35 138 7 22 (17/2) 20 20
        30).2.2 = hint_for (logistic (z_value 35 7 22 (17/2) 20 20 30)) :=
      rfl
    rw [hhint, hz, hint_for, if_pos logistic_demo_gt]

/-! ### Hourly series matcher and weather fetch -/

/-- Absolute time delta computed in the fallback scan of
`nearest_index` (src/main.py, line 430): Python's
`abs(datetime.fromisoformat(t) - target_no_tz)`, with the library
timestamp parsing abstracted as `parse` into a linear time axis. -/
def delta_of (parse : String → ℤ) (target : ℤ) (t : String) : ℕ :=
  (parse t - target).natAbs

/-- Embedding of the inner function `nearest_index` of `fetch_weather`
(src/main.py, lines 425-431): first a linear scan for the first
timestamp whose string starts with the target key; otherwise the index
of the first minimum of the parsed absolute deltas
(`deltas.index(min(deltas))`).  `none` models the uncaught `ValueError`
that Python's `min` raises on an empty sequence. -/
def nearest_index (times : List String) (target_key : String)
    (parse : String → ℤ) (target : ℤ) : Option ℕ :=
  match times.findIdx? (fun t => t.startsWith target_key) with
  | some idx => some idx
  | none =>
    match (times.map (delta_of parse target)).min? with
    | some m => some ((times.map (delta_of parse target)).indexOf m)
    | none => none

/-- The property claim C3 asserts of the index chosen by
`nearest_index`: a returned in-bounds index that is the first
hour-prefix match when one exists, and otherwise the first index
attaining the minimum absolute delta. -/
def nearest_index_good (times : List String) (target_key : String)
    (parse : String → ℤ) (target : ℤ) : Prop :=
  ∃ i, nearest_index times target_key parse target = some i ∧
    ∃ hi : i < times.length,
      ((∃ j, ∃ hj : j < times.length, times[j].startsWith target_key = true) →
        (times[i].startsWith target_key = true ∧
          ∀ j, ∀ hj : j < times.length, j < i →
            times[j].startsWith target_key = false)) ∧
      ((∀ j, ∀ hj : j < times.length, times[j].startsWith target_key = false) →
        ((∀ j, ∀ hj : j < times.length,
            delta_of parse target times[i] ≤ delta_of parse target times[j]) ∧
          (∀ j, ∀ hj : j < times.length, j < i →
            delta_of parse target times[i] < delta_of parse target times[j])))

lemma ne_of_lt_indexOf {α : Type} [DecidableEq α] :
    ∀ (l : List α) (a : α) (j : ℕ) (hj : j < l.length),
      j < List.indexOf a l → l[j] ≠ a := by
  intro l a
  induction l with
  | nil => intro j hj _; simp at hj
  | cons x xs ih =>
    intro j hj hlt
    by_cases hx : x = a
    · subst hx; rw [List.indexOf_cons_self] at hlt; omega
    · rw [List.indexOf_cons_ne _ hx] at hlt
      cases j with
      | zero => simpa using hx
      | succ j =>
        rw [List.getElem_cons_succ]
        exact ih j (by simpa using hj) (by omega)

/-- C3: on a non-empty series, `nearest_index` returns the first
hour-prefix match when one exists (even if another timestamp is closer
in time), and otherwise the first index attaining the minimum absolute
delta. -/
theorem C3_nearest_index_first_match_else_min (times : List String)
    (target_key : String) (parse : String → ℤ) (target : ℤ)
    (hne : times ≠ []) :
    nearest_index_good times target_key parse target := by
  unfold nearest_index_good
  cases hfind : times.findIdx? (fun t => t.startsWith target_key) with
  | some idx =>
    obtain ⟨hlt, hp, hbefore⟩ := List.findIdx?_eq_some_iff_getElem.1 hfind
    have hni : nearest_index times target_key parse target = some idx := by
      unfold nearest_index; rw [hfind]
    refine ⟨idx, hni, hlt, fun _ => ⟨hp, fun j hj hji => ?_⟩, fun hall => ?_⟩
    · have h := hbefore j hji
      simpa using h
    · exact absurd hp (by simp [hall idx hlt])
  | none =>
    have hall : ∀ j, ∀ hj : j < times.length,
        times[j].startsWith target_key = false := fun j hj =>
      List.findIdx?_eq_none_iff.1 hfind _ (List.getElem_mem hj)
    obtain ⟨m, hm⟩ : ∃ m, (times.map (delta_of parse target)).min? = some m := by
      cases h : (times.map (delta_of parse target)).min? with
      | none =>
        have : times.map (delta_of parse target) = [] :=
          List.min?_eq_none_iff.1 h
        simp at this
        exact absurd this hne
      | some m => exact ⟨m, rfl⟩
    obtain ⟨hmem, hle⟩ :=
      (List.min?_eq_some_iff (fun a : ℕ => Nat.le_refl a)
        (fun a b => by omega) (fun a b c => by omega)).1 hm
    have hni : nearest_index times target_key parse target =
        some ((times.map (delta_of parse target)).indexOf m) := by
      unfold nearest_index; rw [hfind, hm]
    have hiltm : (times.map (delta_of parse target)).indexOf m <
        (times.map (delta_of parse target)).length :=
      List.indexOf_lt_length.2 hmem
    have hilt : (times.map (delta_of parse target)).indexOf m <
        times.length := by simpa using hiltm
    have hgeti : (times.map (delta_of parse target))[(times.map
        (delta_of parse target)).indexOf m] = m :=
      List.getElem_indexOf hiltm
    have hdi : delta_of parse target
        times[(times.map (delta_of parse target)).indexOf m] = m := by
      have h := hgeti
      rw [List.getElem_map] at h
      exact h
    refine ⟨(times.map (delta_of parse target)).indexOf m, hni, hilt,
      fun hex => ?_, fun _ => ⟨fun j hj => ?_, fun j hj hji => ?_⟩⟩
    · obtain ⟨j, hj, hjp⟩ := hex
      exact absurd hjp (by simp [hall j hj])
    · have h := hle _ (List.getElem_mem (by simpa using hj :
        j < (times.map (delta_of parse target)).length))
      rw [List.getElem_map] at h
      rw [hdi]
      exact h
    · have hne2 : (times.map (delta_of parse target))[j] ≠ m :=
        ne_of_lt_indexOf _ m j (by simpa using hj) hji
      have h := hle _ (List.getElem_mem (by simpa using hj :
        j < (times.map (delta_of parse target)).length))
      rw [List.getElem_map] at h hne2
      rw [hdi]
      omega

/-- Witness for C3: the spec's scenario-4 series, where no timestamp
matches the key and the first of the two equally-near neighbours (the
11:00 entry, index 1) must win. -/
theorem C3_nearest_index_witness :
    (["2024-05-01T10:00+09:00", "2024-05-01T11:00+09:00",
        "2024-05-01T13:00+09:00"] : List String) ≠ [] ∧
      nearest_index_good
        ["2024-05-01T10:00+09:00", "2024-05-01T11:00+09:00",
          "2024-05-01T13:00+09:00"] "2024-05-01T12:00"
        (fun t => if t = "2024-05-01T10:00+09:00" then 10
          else if t = "2024-05-01T11:00+09:00" then 11 else 13) 12 :=
  ⟨by decide,
    C3_nearest_index_first_match_else_min
      ["2024-05-01T10:00+09:00", "2024-05-01T11:00+09:00",
        "2024-05-01T13:00+09:00"] "2024-05-01T12:00"
      (fun t => if t = "2024-05-01T10:00+09:00" then 10
        else if t = "2024-05-01T11:00+09:00" then 11 else 13) 12
      (by decide)⟩

/-- Error outcomes of `fetch_weather` (src/main.py, lines 398-439),
modelled after the JSON response has been parsed (the network and JSON
layers are outside the fetch logic embedded here).
`dataUnavailable` is the `RuntimeError` raised when the hourly block or
its time field is missing; `extractionFailed` is the `RuntimeError`
raised when indexing the parallel value arrays fails; and
`uncaughtValueError` is the `ValueError` escaping from `min` on an
empty sequence inside `nearest_index`, which `fetch_weather`
does not catch. -/
inductive FetchError where
  | dataUnavailable : FetchError
  | extractionFailed : FetchError
  | uncaughtValueError : FetchError
deriving DecidableEq

/-- The `hourly` block of the collaborator response: each field is
optional, mirroring `hourly["time"]` / `hourly.get(...)` access. -/
structure HourlyBlock where
  time : Option (List String)
  cloudcover : Option (List ℚ)
  visibility : Option (List ℚ)

/-- The parsed collaborator response: `data.get("hourly")`. -/
structure WeatherResponse where
  hourly : Option HourlyBlock

/-- Embedding of `fetch_weather` (src/main.py, lines 398-439) from the
parsed response onward: the missing-hourly / missing-time check raising
the data-unavailable error, the nearest-index lookup, and the
extraction of the parallel arrays with clamping (visibility converted
from meters to kilometers). -/
def fetch_weather (data : WeatherResponse) (target_key : String)
    (parse : String → ℤ) (target : ℤ) : Except FetchError (ℚ × ℚ) :=
  match data.hourly with
  | none => .error .dataUnavailable
  | some hourly =>
    match hourly.time with
    | none => .error .dataUnavailable
    | some times =>
      match nearest_index times target_key parse target with
      | none => .error .uncaughtValueError
      | some idx =>
        match (hourly.cloudcover.getD [])[idx]?,
            (hourly.visibility.getD [])[idx]? with
        | some cloud_val, some vis_val =>
          .ok (clamp cloud_val 0 100, clamp (vis_val / 1000) 0 40)
        | some _, none => .error .extractionFailed
        | none, _ => .error .extractionFailed

/-- Counterexample to C4 as stated: a response whose hourly block is
present and carries an empty timestamp series does not produce the
distinct data-unavailable condition; it fails with the undifferentiated
`ValueError` escaping from `min(deltas)`. -/
theorem C4_counterexample :
    fetch_weather ⟨some ⟨some [], some [], some []⟩⟩ "2024-05-01T12:00"
        (fun _ => 0) 0 = .error .uncaughtValueError ∧
      FetchError.uncaughtValueError ≠ FetchError.dataUnavailable :=
  ⟨rfl, by decide⟩

/-- C4 (amended): a missing hourly block or a missing timestamp field
is signalled as the distinct data-unavailable condition, but an empty
timestamp series escapes that check and instead fails with the
undifferentiated `ValueError` raised by `min` on an empty sequence. -/
theorem C4_malformed_response (data : WeatherResponse) (target_key : String)
    (parse : String → ℤ) (target : ℤ) :
    (data.hourly = none →
      fetch_weather data target_key parse target =
        .error .dataUnavailable) ∧
    (∀ hb, data.hourly = some hb → hb.time = none →
      fetch_weather data target_key parse target =
        .error .dataUnavailable) ∧
    (∀ hb, data.hourly = some hb → hb.time = some [] →
      fetch_weather data target_key parse target =
        .error .uncaughtValueError) := by
  refine ⟨fun h => ?_, fun hb hhb ht => ?_, fun hb hhb ht => ?_⟩
  · unfold fetch_weather; rw [h]
  · simp only [fetch_weather, hhb, ht]
  · simp only [fetch_weather, hhb, ht]
    rfl

/-- Witness for C4 (amended): a response with no hourly block at all is
reported as data-unavailable. -/
theorem C4_malformed_witness :
    (WeatherResponse.mk none).hourly = none ∧
      fetch_weather ⟨none⟩ "2024-05-01T12:00" (fun _ => 0) 0 =
        .error .dataUnavailable :=
  ⟨rfl, (C4_malformed_response ⟨none⟩ "2024-05-01T12:00" (fun _ => 0) 0).1
    rfl⟩

/-! ### Lunar illumination estimator -/

/-- Python float modulo with a positive divisor (src/main.py, line 145):
`x % s = x - s * floor(x / s)`. -/
def fmod (x s : ℚ) : ℚ := x - s * ⌊x / s⌋

/-- The synodic month length used by `moon_illumination` (line 144). -/
def synodic_month : ℚ := 29.53058867

/-- Gregorian-to-Julian-day conversion of `moon_illumination`
(src/main.py, lines 134-142), on a fractional day.  Python's `//` is
`Int.fdiv`; `int(...)` truncates toward zero, which agrees with the
floor used here on the nonnegative arguments arising from valid
datetime years (Python requires year ≥ 1). -/
def julian_day (year month : ℤ) (day : ℚ) : ℚ :=
  let year2 := if month < 3 then year - 1 else year
  let month2 := if month < 3 then month + 12 else month
  let a := Int.fdiv year2 100
  let b := 2 - a + Int.fdiv a 4
  ((⌊(365.25 : ℚ) * ((year2 : ℚ) + 4716)⌋ : ℤ) : ℚ)
    + ((⌊(30.6001 : ℚ) * ((month2 : ℚ) + 1)⌋ : ℤ) : ℚ)
    + day + (b : ℚ) - 1524.5

/-- Real-valued clamp, the same branch structure as `clamp`, used for
the final clamping of the illumination (line 147). -/
noncomputable def clampR (value min_value max_value : ℝ) : ℝ :=
  if value < min_value then min_value
  else if value > max_value then max_value
  else value

/-- The phase-to-illumination computation of `moon_illumination`
(src/main.py, lines 143-147) as a function of the Julian day:
`phase = ((jd - 2451549.5) % synodic) / synodic`,
`illumination = (1 - cos(2*pi*phase)) / 2`, clamped to `[0,1]`. -/
noncomputable def illum_of_jd (jd : ℚ) : ℝ :=
  clampR ((1 - Real.cos (2 * Real.pi *
    ((fmod (jd - 2451549.5) synodic_month / synodic_month : ℚ) : ℝ))) / 2) 0 1

/-- A Python `datetime.datetime` value.  The fields below the hour exist
on the Python object but are ignored by `moon_illumination`. -/
structure PyDateTime where
  year : ℤ
  month : ℤ
  day : ℤ
  hour : ℤ
  minute : ℤ
  second : ℤ
  microsecond : ℤ

/-- Embedding of `moon_illumination` (src/main.py, lines 130-147): the
civil date is reduced to `day + hour/24` — minutes, seconds and
microseconds are discarded — and converted through `julian_day`. -/
noncomputable def moon_illumination (dt : PyDateTime) : ℝ :=
  illum_of_jd (julian_day dt.year dt.month ((dt.day : ℚ) + (dt.hour : ℚ) / 24))

/-- The precise position of a datetime on the Julian-day axis: the same
Gregorian conversion as `julian_day`, applied to the full fractional
day including minutes, seconds and microseconds.  Two datetimes are
exactly `d` days apart precisely when their `jd_precise` values differ
by `d`; this expresses C8's "exactly one synodic month apart". -/
def jd_precise (dt : PyDateTime) : ℚ :=
  julian_day dt.year dt.month ((dt.day : ℚ) +
    ((dt.hour : ℚ) * 3600 + (dt.minute : ℚ) * 60 + (dt.second : ℚ)
      + (dt.microsecond : ℚ) / 1000000) / 86400)

lemma clampR_eq_self {v lo hi : ℝ} (h1 : lo ≤ v) (h2 : v ≤ hi) :
    clampR v lo hi = v := by
  unfold clampR
  rw [if_neg (not_lt.2 h1), if_neg (not_lt.2 h2)]

lemma cos_pi_r_ge :
    (1:ℝ)/2 ≤ Real.cos (Real.pi * (886992863/5906117734 : ℝ)) := by
  have hπu := Real.pi_lt_d2
  have hπl := Real.pi_gt_d6
  set y := Real.pi * (886992863/5906117734 : ℝ) with hy
  have hy_pos : 0 < y := by rw [hy]; positivity
  have hy_hi : y ≤ 48/100 := by rw [hy]; nlinarith
  have habs : |y| ≤ 1 := by rw [abs_of_pos hy_pos]; linarith
  have hcb := Real.cos_bound habs
  rw [abs_of_pos hy_pos] at hcb
  have h1 := (abs_le.1 hcb).1
  have hy2 : y^2 ≤ (48/100)^2 := pow_le_pow_left₀ hy_pos.le hy_hi 2
  have hy4 : y^4 ≤ (48/100)^4 := pow_le_pow_left₀ hy_pos.le hy_hi 4
  nlinarith

lemma sin_pi_d_ge :
    (3:ℝ)/1000 ≤ Real.sin (Real.pi * (3058867/2953058867 : ℝ)) := by
  have hπu := Real.pi_lt_d2
  have hπl := Real.pi_gt_d6
  set x := Real.pi * (3058867/2953058867 : ℝ) with hx
  have hx_pos : 0 < x := by rw [hx]; positivity
  have hx_lo : (32/10000 : ℝ) ≤ x := by rw [hx]; nlinarith
  have hx_hi : x ≤ 33/10000 := by rw [hx]; nlinarith
  have habs : |x| ≤ 1 := by rw [abs_of_pos hx_pos]; linarith
  have hsb := Real.sin_bound habs
  rw [abs_of_pos hx_pos] at hsb
  have h1 := (abs_le.1 hsb).1
  have hx3 : x^3 ≤ (33/10000)^3 := pow_le_pow_left₀ hx_pos.le hx_hi 3
  have hx4 : x^4 ≤ (33/10000)^4 := pow_le_pow_left₀ hx_pos.le hx_hi 4
  nlinarith

lemma sin_pi_q_eq :
    Real.sin (Real.pi * (3986091869/2953058867 : ℝ))
      = -Real.cos (Real.pi * (886992863/5906117734 : ℝ)) := by
  rw [show (3986091869/2953058867 : ℝ) = 1033033002/2953058867 + 1 from by
    norm_num]
  rw [show Real.pi * ((1033033002/2953058867 : ℝ) + 1)
      = Real.pi * (1033033002/2953058867 : ℝ) + Real.pi from by ring]
  rw [Real.sin_add_pi]
  rw [show Real.pi * (1033033002/2953058867 : ℝ)
      = Real.pi/2 - Real.pi * (886992863/5906117734 : ℝ) from by
    rw [show (1033033002/2953058867 : ℝ)
        = 1/2 - 886992863/5906117734 from by norm_num]
    ring]
  rw [Real.sin_pi_div_two_sub]

lemma jd_jan1 : julian_day 2024 1 (((1:ℤ):ℚ) + ((0:ℤ):ℚ)/24) = 2460310.5 := by
  unfold julian_day
  norm_num
  rw [show Int.fdiv 2023 100 = 20 from by decide,
    show Int.fdiv 20 4 = 5 from by decide]
  norm_num

lemma jd_jan30 : julian_day 2024 1 (((30:ℤ):ℚ) + ((12:ℤ):ℚ)/24) = 2460340 := by
  unfold julian_day
  norm_num
  rw [show Int.fdiv 2023 100 = 20 from by decide,
    show Int.fdiv 20 4 = 5 from by decide]
  norm_num

lemma phase_jan1 :
    fmod ((2460310.5 : ℚ) - 2451549.5) synodic_month / synodic_month
      = 1994575368/2953058867 := by
  unfold fmod synodic_month
  norm_num

lemma phase_jan30 :
    fmod ((2460340 : ℚ) - 2451549.5) synodic_month / synodic_month
      = 1991516501/2953058867 := by
  unfold fmod synodic_month
  norm_num

lemma moon_jan1 : moon_illumination ⟨2024,1,1,0,0,0,0⟩
    = (1 - Real.cos (2 * Real.pi * (1994575368/2953058867 : ℝ)))/2 := by
  show illum_of_jd (julian_day 2024 1 (((1:ℤ):ℚ) + ((0:ℤ):ℚ)/24)) = _
  rw [jd_jan1]
  unfold illum_of_jd
  rw [phase_jan1]
  rw [show (((1994575368/2953058867 : ℚ)) : ℝ) = (1994575368/2953058867 : ℝ)
    from by norm_num]
  exact clampR_eq_self
    (by nlinarith [Real.cos_le_one (2*Real.pi*(1994575368/2953058867:ℝ))])
    (by nlinarith [Real.neg_one_le_cos (2*Real.pi*(1994575368/2953058867:ℝ))])

lemma moon_jan30 : moon_illumination ⟨2024,1,30,12,44,2,861088⟩
    = (1 - Real.cos (2 * Real.pi * (1991516501/2953058867 : ℝ)))/2 := by
  show illum_of_jd (julian_day 2024 1 (((30:ℤ):ℚ) + ((12:ℤ):ℚ)/24)) = _
  rw [jd_jan30]
  unfold illum_of_jd
  rw [phase_jan30]
  rw [show (((1991516501/2953058867 : ℚ)) : ℝ) = (1991516501/2953058867 : ℝ)
    from by norm_num]
  exact clampR_eq_self
    (by nlinarith [Real.cos_le_one (2*Real.pi*(1991516501/2953058867:ℝ))])
    (by nlinarith [Real.neg_one_le_cos (2*Real.pi*(1991516501/2953058867:ℝ))])

lemma moon_diff_jan : moon_illumination ⟨2024,1,30,12,44,2,861088⟩
      - moon_illumination ⟨2024,1,1,0,0,0,0⟩
    = Real.cos (Real.pi * (886992863/5906117734 : ℝ))
      * Real.sin (Real.pi * (3058867/2953058867 : ℝ)) := by
  rw [moon_jan30, moon_jan1]
  rw [show (1 - Real.cos (2 * Real.pi * (1991516501/2953058867 : ℝ)))/2
      - (1 - Real.cos (2 * Real.pi * (1994575368/2953058867 : ℝ)))/2
      = (Real.cos (2 * Real.pi * (1994575368/2953058867 : ℝ))
        - Real.cos (2 * Real.pi * (1991516501/2953058867 : ℝ)))/2 from by
    ring]
  rw [Real.cos_sub_cos]
  rw [show (2*Real.pi*(1994575368/2953058867:ℝ)
        + 2*Real.pi*(1991516501/2953058867:ℝ))/2
      = Real.pi * (3986091869/2953058867:ℝ) from by
    rw [show (3986091869/2953058867:ℝ)
        = 1994575368/2953058867 + 1991516501/2953058867 from by norm_num]
    ring]
  rw [show (2*Real.pi*(1994575368/2953058867:ℝ)
        - 2*Real.pi*(1991516501/2953058867:ℝ))/2
      = Real.pi * (3058867/2953058867:ℝ) from by
    rw [show (3058867/2953058867:ℝ)
        = 1994575368/2953058867 - 1991516501/2953058867 from by norm_num]
    ring]
  rw [sin_pi_q_eq]
  ring

/-- Counterexample to C8 as stated: the datetimes 2024-01-01T00:00:00
and 2024-01-30T12:44:02.861088 are exactly one synodic month
(29.53058867 days) apart, yet their illumination values differ by about
2.9e-3, far more than the 1e-6 tolerance, because `moon_illumination`
discards minutes and seconds before the phase computation. -/
theorem C8_counterexample :
    jd_precise ⟨2024,1,30,12,44,2,861088⟩ - jd_precise ⟨2024,1,1,0,0,0,0⟩
        = synodic_month ∧
      ¬ (|moon_illumination ⟨2024,1,30,12,44,2,861088⟩
            - moon_illumination ⟨2024,1,1,0,0,0,0⟩| ≤ 1/1000000) := by
  constructor
  · show julian_day 2024 1 _ - julian_day 2024 1 _ = synodic_month
    unfold julian_day synodic_month
    norm_num
  · intro habs
    have h1 := cos_pi_r_ge
    have h2 := sin_pi_d_ge
    have h3 : moon_illumination ⟨2024,1,30,12,44,2,861088⟩
        - moon_illumination ⟨2024,1,1,0,0,0,0⟩ ≥ 3/2000 := by
      rw [moon_diff_jan]; nlinarith
    linarith [le_abs_self (moon_illumination ⟨2024,1,30,12,44,2,861088⟩
      - moon_illumination ⟨2024,1,1,0,0,0,0⟩)]

lemma fmod_add_self (x s : ℚ) (hs : s ≠ 0) : fmod (x + s) s = fmod x s := by
  unfold fmod
  rw [show (x + s) / s = x / s + 1 from by field_simp, Int.floor_add_one]
  push_cast
  ring

/-- C8 (amended): the illumination as a function of the Julian day is
exactly periodic with period one synodic month, and `moon_illumination`
factors through the hour-truncated Julian day; the periodicity fails at
datetime level only because sub-hour fields are discarded. -/
theorem C8_periodicity_amended :
    (∀ jd : ℚ, illum_of_jd (jd + synodic_month) = illum_of_jd jd) ∧
    (∀ dt : PyDateTime, moon_illumination dt =
      illum_of_jd (julian_day dt.year dt.month
        ((dt.day : ℚ) + (dt.hour : ℚ) / 24))) := by
  refine ⟨fun jd => ?_, fun dt => rfl⟩
  unfold illum_of_jd
  rw [show jd + synodic_month - 2451549.5 = (jd - 2451549.5) + synodic_month
    from by ring]
  rw [fmod_add_self _ _ (by norm_num [synodic_month])]

end RedSprite
